import Mathlib

/-!
Verification development for the sonic-4337-bundler repository.

JavaScript strings are modelled as `List Char`; JS `Map` and `Set` are
modelled as association lists / element lists preserving insertion order,
matching the iteration-order guarantees of the JS runtime.  Asynchronous
calls to external collaborators (blockchain JSON-RPC via ethers, sqlite)
are modelled by passing their outcome as an explicit argument; a JS
exception is modelled with `Except`.
-/

/-- ASCII lowercasing of a JS string (`String.prototype.toLowerCase` on
the ASCII range; core's `Char.toLower` has exactly this behaviour). -/
def toLowerStr (s : List Char) : List Char := s.map Char.toLower

/-- Decoded revert data, as produced by
`entryPointContract.interface.parseError(error.data)` in
`BlockchainService.simulateValidation`: `parsed` models a successful
decode into an error description with a name and args, `parsedNull`
models `parseError` returning `null`, `unparseable` models `parseError`
throwing. -/
inductive ParsedError
  | parsed (name : List Char) (args : List (List Char))
  | parsedNull
  | unparseable
deriving DecidableEq, Repr

/-- Outcome of `entryPointWithSigner.simulateValidation.staticCall(userOp)`:
either the call returns a value, or it throws an error carrying an
optional `data` field (revert data) and a `message`. -/
inductive StaticCallOutcome
  | ok (ret : List Char)
  | exn (data : Option ParsedError) (message : List Char)
deriving DecidableEq, Repr

/-- Result object of `BlockchainService.simulateValidation`. -/
structure SimulationResult where
  success : Bool
  result : Option (List Char)
  error : Option (List Char)
  data : Option (List (List Char))
deriving DecidableEq, Repr

/-- `BlockchainService.simulateValidation` (the canonical copy of the
chain-service wrapper): returns `{success: true, result: tx}` when the
static call does not throw; on a throw, decodes `error.data` when
present (`decodedError?.name || 'Validation failed'`,
`data: decodedError?.args`), otherwise surfaces `error.message`. -/
def simulateValidation : StaticCallOutcome → SimulationResult
  | .ok tx =>
      { success := true, result := some tx, error := none, data := none }
  | .exn (some (.parsed name args)) _ =>
      { success := false, result := none,
        error := some (if name = [] then "Validation failed".data else name),
        data := some args }
  | .exn (some .parsedNull) _ =>
      { success := false, result := none,
        error := some ("Validation failed".data), data := none }
  | .exn (some .unparseable) message =>
      { success := false, result := none, error := some message, data := none }
  | .exn none message =>
      { success := false, result := none, error := some message, data := none }

/-- The spec's success criterion, following its words: callers receive
`{ok: true}` iff the revert carries the known success selector
(`ValidationResult`). -/
def specSimulationOk : StaticCallOutcome → Bool
  | .exn (some (.parsed name _)) _ => name = "ValidationResult".data
  | _ => false

/-- Is `c` a hexadecimal digit (as accepted by ethers hex data)? -/
def isHexDig (c : Char) : Bool :=
  ('0' ≤ c ∧ c ≤ '9') ∨ ('a' ≤ c ∧ c ≤ 'f') ∨ ('A' ≤ c ∧ c ≤ 'F')

/-- `ethers.dataLength(value)`: byte length of a `0x`-prefixed
even-length hex string; `none` models the throw on malformed data. -/
def dataLength? (s : List Char) : Option Nat :=
  if s.take 2 = "0x".data ∧ (s.drop 2).all isHexDig ∧ (s.drop 2).length % 2 = 0 then
    some ((s.length - 2) / 2)
  else none

/-- The eleven-field UserOperation record (`src/types/index.ts`), every
field a JS string. -/
structure UserOperation where
  sender : List Char
  nonce : List Char
  initCode : List Char
  callData : List Char
  callGasLimit : List Char
  verificationGasLimit : List Char
  preVerificationGas : List Char
  maxFeePerGas : List Char
  maxPriorityFeePerGas : List Char
  paymasterAndData : List Char
  signature : List Char
deriving DecidableEq, Repr

/-- Gas estimate triple returned by the estimation entry points. -/
structure GasEstimate where
  preVerificationGas : List Char
  verificationGasLimit : List Char
  callGasLimit : List Char
deriving DecidableEq, Repr

/-- `BlockchainService.estimateUserOperationGas` of the canonical copy
(the one using the on-chain simulation fallback plus the byte-length
formula).  The outcome of the inner `simulateValidation` static call is
passed explicitly; `BigInt.prototype.toString` is decimal, modelled by
`Nat.repr`. -/
def estimateUserOperationGas (call : StaticCallOutcome) (userOp : UserOperation) :
    GasEstimate :=
  let simulation := simulateValidation call
  if simulation.success = false then
    { preVerificationGas := "100000".data,
      verificationGasLimit := "100000".data,
      callGasLimit := "100000".data }
  else
    match dataLength? userOp.callData with
    | none =>
        { preVerificationGas := "100000".data,
          verificationGasLimit := "100000".data,
          callGasLimit := "100000".data }
    | some callDataLength =>
        let preVerificationGas := 21000 + callDataLength * 16
        let verificationGasLimit := preVerificationGas * 2
        { preVerificationGas := (Nat.repr preVerificationGas).data,
          verificationGasLimit := (Nat.repr verificationGasLimit).data,
          callGasLimit := (Nat.repr 100000).data }

/-- `padStart(40, '0').slice(0, 40)` from the address branch of
`ensureHex`. -/
def padTo40 (s : List Char) : List Char :=
  (List.replicate (40 - s.length) '0' ++ s).take 40

/-- Tail of `SendUserOperationMethod.ensureHex` after `strValue` has been
computed (prefix stripped): the empty/zero collapse, the address
padding, and the even-length padding, each followed by lowercasing. -/
def ensureHexStripped (strValue : List Char) (isAddress : Bool) : List Char :=
  if strValue = [] ∨ strValue = "0".data then "0x".data
  else if isAddress then "0x".data ++ toLowerStr (padTo40 strValue)
  else if strValue.length % 2 = 1 then "0x".data ++ toLowerStr ('0' :: strValue)
  else "0x".data ++ toLowerStr strValue

/-- `SendUserOperationMethod.ensureHex(value, isAddress)`: a falsy value
becomes `0x`, then the `0x` prefix is stripped and the rest is handled
by `ensureHexStripped`. -/
def ensureHex (value : List Char) (isAddress : Bool) : List Char :=
  if value = [] then "0x".data
  else ensureHexStripped (if value.take 2 = "0x".data then value.drop 2 else value)
    isAddress

/-- JS `value || dflt` for strings (only the empty string is falsy). -/
def orDefault (value dflt : List Char) : List Char :=
  if value = [] then dflt else value

/-- `SendUserOperationMethod.formatUserOperation`: normalizes every field
via `ensureHex`, with the defaults from the source (`0x`, `0xf4240`,
`0x3b9aca00`) and an extra `toLowerCase` on the sender. -/
def formatUserOperation (userOp : UserOperation) : UserOperation :=
  { sender := toLowerStr (ensureHex userOp.sender true),
    nonce := ensureHex userOp.nonce false,
    initCode := ensureHex (orDefault userOp.initCode ("0x".data)) false,
    callData := ensureHex (orDefault userOp.callData ("0x".data)) false,
    callGasLimit := ensureHex (orDefault userOp.callGasLimit ("0xf4240".data)) false,
    verificationGasLimit :=
      ensureHex (orDefault userOp.verificationGasLimit ("0xf4240".data)) false,
    preVerificationGas :=
      ensureHex (orDefault userOp.preVerificationGas ("0xf4240".data)) false,
    maxFeePerGas := ensureHex (orDefault userOp.maxFeePerGas ("0x3b9aca00".data)) false,
    maxPriorityFeePerGas :=
      ensureHex (orDefault userOp.maxPriorityFeePerGas ("0x3b9aca00".data)) false,
    paymasterAndData := ensureHex (orDefault userOp.paymasterAndData ("0x".data)) false,
    signature := ensureHex (orDefault userOp.signature ("0x".data)) false }

/-- JS `Map.prototype.get` over an insertion-ordered association list. -/
def mapGet {V : Type} (m : List (List Char × V)) (k : List Char) : Option V :=
  (m.find? (fun e => decide (e.1 = k))).map (·.2)

/-- JS `Map.prototype.set`: replace in place when the key exists,
otherwise append (insertion order preserved). -/
def mapSet {V : Type} (m : List (List Char × V)) (k : List Char) (v : V) :
    List (List Char × V) :=
  if (m.find? (fun e => decide (e.1 = k))).isSome then
    m.map (fun e => if e.1 = k then (k, v) else e)
  else m ++ [(k, v)]

/-- JS `Map.prototype.delete`. -/
def mapDelete {V : Type} (m : List (List Char × V)) (k : List Char) :
    List (List Char × V) :=
  m.filter (fun e => decide (e.1 ≠ k))

/-- JS `Set.prototype.add` (insertion order preserved). -/
def setAdd (s : List (List Char)) (x : List Char) : List (List Char) :=
  if s.contains x then s else s ++ [x]

/-- JS `Set.prototype.delete`. -/
def setDelete (s : List (List Char)) (x : List Char) : List (List Char) :=
  s.filter (fun y => decide (y ≠ x))

/-- In-memory state of `MempoolManager`: `inMemoryMempool` maps
userOpHash to UserOperation, `senderNonces` maps lowercased sender to
the set of its pending nonces. -/
structure MempoolState where
  inMemoryMempool : List (List Char × UserOperation)
  senderNonces : List (List Char × List (List Char))
deriving DecidableEq, Repr

/-- `MempoolManager.add`: duplicate check, nonce check, insertion into
both in-memory maps, then the store call (`db.saveUserOperation`)
whose outcome is passed as `saveResult`.  The returned pair is (the
promise outcome, the in-memory state after the call): in the source the
in-memory maps are mutated before the store call, so a store failure
leaves them mutated. -/
def MempoolState.add (st : MempoolState) (userOp : UserOperation)
    (userOpHash : List Char) (saveResult : Except (List Char) Unit) :
    Except (List Char) Unit × MempoolState :=
  let sender := toLowerStr userOp.sender
  if (mapGet st.inMemoryMempool userOpHash).isSome then
    (Except.error ("UserOperation already in mempool".data), st)
  else if (match mapGet st.senderNonces sender with
           | some nonces => nonces.contains userOp.nonce
           | none => false) then
    (Except.error
      (("Nonce ".data ++ userOp.nonce) ++ (" already used by sender ".data ++ sender)),
     st)
  else
    let nonces := (mapGet st.senderNonces sender).getD []
    let st' : MempoolState :=
      { inMemoryMempool := mapSet st.inMemoryMempool userOpHash userOp,
        senderNonces := mapSet st.senderNonces sender (setAdd nonces userOp.nonce) }
    match saveResult with
    | Except.ok _ => (Except.ok (), st')
    | Except.error e => (Except.error e, st')

/-- `MempoolManager.markAsSubmitted`: only performs the store
write-through (`db.updateUserOperationStatus`); the in-memory maps are
not touched. -/
def markAsSubmitted (st : MempoolState) (userOpHash txHash : List Char) :
    MempoolState :=
  st

/-- `MempoolManager.markAsConfirmed`: after the store write-through it
deletes the hash from `inMemoryMempool` and THEN re-reads the (now
deleted) entry, so the nonce-cleanup branch is dead code; it is
nevertheless modelled faithfully. -/
def markAsConfirmed (st : MempoolState) (userOpHash gasUsed gasCost : List Char) :
    MempoolState :=
  let m' := mapDelete st.inMemoryMempool userOpHash
  match mapGet m' userOpHash with
  | some userOp =>
      let sender := toLowerStr userOp.sender
      match mapGet st.senderNonces sender with
      | some nonces =>
          { inMemoryMempool := m',
            senderNonces := mapSet st.senderNonces sender (setDelete nonces userOp.nonce) }
      | none => { inMemoryMempool := m', senderNonces := st.senderNonces }
  | none => { inMemoryMempool := m', senderNonces := st.senderNonces }

/-- `MempoolManager.markAsFailed`: store write-through, then delete the
hash from `inMemoryMempool` only; `senderNonces` is not touched. -/
def markAsFailed (st : MempoolState) (userOpHash errorMessage : List Char) :
    MempoolState :=
  { inMemoryMempool := mapDelete st.inMemoryMempool userOpHash,
    senderNonces := st.senderNonces }

/-- `MempoolManager.getAll`: snapshot of the map values in insertion
order. -/
def getAll (st : MempoolState) : List UserOperation :=
  st.inMemoryMempool.map (·.2)

/-- `MempoolManager.getPendingCount`. -/
def getPendingCount (st : MempoolState) : Nat :=
  st.inMemoryMempool.length

/-- Decimal digit value, as in `BigInt(string)` parsing. -/
def decDigitVal? (c : Char) : Option Nat :=
  if '0' ≤ c ∧ c ≤ '9' then some (c.toNat - 48) else none

/-- Hex digit value, as in `BigInt('0x...')` parsing. -/
def hexDigitVal? (c : Char) : Option Nat :=
  if '0' ≤ c ∧ c ≤ '9' then some (c.toNat - 48)
  else if 'a' ≤ c ∧ c ≤ 'f' then some (c.toNat - 87)
  else if 'A' ≤ c ∧ c ≤ 'F' then some (c.toNat - 55)
  else none

/-- Fold a digit string in the given base; `none` on any non-digit. -/
def parseDigits? (digitVal? : Char → Option Nat) (base : Nat) (s : List Char) :
    Option Nat :=
  s.foldl
    (fun acc c =>
      match acc, digitVal? c with
      | some a, some d => some (a * base + d)
      | _, _ => none)
    (some 0)

/-- JS `BigInt(string)` restricted to non-negative inputs: `0x`-prefixed
strings parse as hex (`BigInt('0x')` throws, hence `none`), everything
else as decimal (`BigInt('')` is `0`); `none` models the SyntaxError
throw. -/
def parseBigInt? (s : List Char) : Option Nat :=
  if s.take 2 = "0x".data then
    if s.drop 2 = [] then none else parseDigits? hexDigitVal? 16 (s.drop 2)
  else parseDigits? decDigitVal? 10 s

/-- `BigInt(op.maxFeePerGas)` as used by the executor's sort comparator
(total with junk defaulting to 0; `createBundle` guards the partial
cases separately). -/
def fee (op : UserOperation) : Nat := (parseBigInt? op.maxFeePerGas).getD 0

/-- The comparator of `BundleExecutor.createBundle`:
`feeA > feeB ? -1 : feeA < feeB ? 1 : 0`. -/
def cmpUserOp (a b : UserOperation) : Int :=
  if fee a > fee b then -1 else if fee a < fee b then 1 else 0

/-- `a` may stay before `b` under the comparator, i.e. the comparator
returns a non-positive value.  A JS stable sort keeps `a` before `b`
exactly when this holds. -/
def sortBefore (a b : UserOperation) : Prop := cmpUserOp a b ≤ 0

instance sortBeforeDecidable : DecidableRel sortBefore :=
  fun a b => inferInstanceAs (Decidable (cmpUserOp a b ≤ 0))

/-- The part of the bundle preparation relevant to selection: the sorted,
truncated member list and the hashes that could be recomputed (the
source also derives a keccak `bundleHash` from the hashes; no claim
depends on it). -/
structure BundlePrep where
  userOps : List UserOperation
  userOpHashes : List (List Char)
deriving DecidableEq, Repr

/-- `BundleExecutor.createBundle`: throws on an empty mempool, sorts the
snapshot descending by `maxFeePerGas` as a BigInt with a stable sort
(JS `Array.prototype.sort` is stable; `List.insertionSort` with the
may-stay-before relation computes the same stable order), takes the
first 10, and recomputes hashes via the chain, skipping failures.  A
`maxFeePerGas` that `BigInt` cannot parse makes the comparator throw,
modelled by the second guard. -/
def createBundle (getUserOpHash : UserOperation → Option (List Char))
    (allUserOps : List UserOperation) : Except (List Char) BundlePrep :=
  if allUserOps.length = 0 then Except.error ("No UserOperations in mempool".data)
  else if allUserOps.any (fun op => (parseBigInt? op.maxFeePerGas).isNone) then
    Except.error ("Cannot convert maxFeePerGas to a BigInt".data)
  else
    let sortedUserOps := List.insertionSort sortBefore allUserOps
    let bundleUserOps := sortedUserOps.take 10
    Except.ok
      { userOps := bundleUserOps,
        userOpHashes := bundleUserOps.filterMap getUserOpHash }

/-- A JSON-RPC id value (number or string); `null`/absent is modelled by
`Option` around this type. -/
inductive JsId
  | num (n : Int)
  | str (s : List Char)
deriving DecidableEq, Repr

/-- JSON-RPC error object. -/
structure RPCError where
  code : Int
  message : List Char
  data : Option (List Char)
deriving DecidableEq, Repr

/-- A JSON-RPC params entry (string, UserOperation object, or
null-ish/other). -/
inductive RpcParam
  | jstr (s : List Char)
  | jobj (u : UserOperation)
  | jnull
deriving DecidableEq, Repr

/-- An incoming JSON-RPC request object; `none` models an absent or
null field. -/
structure RPCRequest where
  jsonrpc : Option (List Char)
  method : Option (List Char)
  params : Option (List RpcParam)
  id : Option JsId
deriving DecidableEq, Repr

/-- A JSON-RPC response object (`result` abstracted to a string
payload). -/
structure RPCResponse where
  jsonrpc : List Char
  result : Option (List Char)
  error : Option RPCError
  id : Option JsId
deriving DecidableEq, Repr

/-- `RPCServer.handleSingleRPCRequest`: missing/empty method and wrong
`jsonrpc` yield `-32600`; otherwise the method switch runs, modelled by
the `exec` oracle covering the method table, the `-32601` default and
the catch-to-error conversion.  The response id is the request id when
present and non-null, else the number 1. -/
def handleSingleRPCRequest
    (exec : List Char → List RpcParam → Except RPCError (List Char))
    (request : RPCRequest) : RPCResponse :=
  let params := request.params.getD []
  let respId : Option JsId :=
    match request.id with
    | some v => some v
    | none => some (JsId.num 1)
  match request.method with
  | none =>
      { jsonrpc := "2.0".data, result := none,
        error := some ⟨-32600, "Invalid request: missing method".data, none⟩,
        id := respId }
  | some m =>
      if m = [] then
        { jsonrpc := "2.0".data, result := none,
          error := some ⟨-32600, "Invalid request: missing method".data, none⟩,
          id := respId }
      else if request.jsonrpc ≠ some ("2.0".data) then
        { jsonrpc := "2.0".data, result := none,
          error := some ⟨-32600, ("Invalid JSON-RPC version. Expected: 2.0".data), none⟩,
          id := respId }
      else
        match exec m params with
        | Except.ok result =>
            { jsonrpc := "2.0".data, result := some result, error := none, id := respId }
        | Except.error e =>
            { jsonrpc := "2.0".data, result := none, error := some e, id := respId }

/-- One entry of a JSON-RPC batch array: either not an object (null,
number, string, boolean) or a request object. -/
inductive BatchItem
  | nonObj
  | obj (r : RPCRequest)
deriving DecidableEq, Repr

/-- The per-item processing of the batch branch of `POST /`: a non-object
entry yields `-32600` with id null, an object goes through
`handleSingleRPCRequest` (which is total, so the per-item catch is
unreachable). -/
def processBatchItem
    (exec : List Char → List RpcParam → Except RPCError (List Char)) :
    BatchItem → RPCResponse
  | BatchItem.nonObj =>
      { jsonrpc := "2.0".data, result := none,
        error := some ⟨-32600, "Invalid request format".data, none⟩, id := none }
  | BatchItem.obj r => handleSingleRPCRequest exec r

/-- The parsed body of a `POST /`: an array (batch) or a single value. -/
inductive RequestBody
  | batch (items : List BatchItem)
  | single (item : BatchItem)
deriving DecidableEq, Repr

/-- Result of the `POST /` handler: a single response object or an array
of responses. -/
inductive PostResult
  | one (resp : RPCResponse)
  | many (resps : List RPCResponse)
deriving DecidableEq, Repr

/-- The single error response returned for an empty batch array. -/
def emptyBatchResponse : RPCResponse :=
  { jsonrpc := "2.0".data, result := none,
    error := some ⟨-32600, "Invalid request: empty batch".data, none⟩, id := none }

/-- The JSON-RPC branch of `RPCServer.setupRoutes` for `POST /`: an empty
batch is a single `-32600` error; a non-empty batch maps each entry
independently; a single object goes through `handleSingleRPCRequest`. -/
def handleRPCPost
    (exec : List Char → List RpcParam → Except RPCError (List Char)) :
    RequestBody → PostResult
  | RequestBody.batch items =>
      if items.length = 0 then PostResult.one emptyBatchResponse
      else PostResult.many (items.map (processBatchItem exec))
  | RequestBody.single BatchItem.nonObj =>
      PostResult.one
        { jsonrpc := "2.0".data, result := none,
          error := some ⟨-32600, "Invalid request format".data, none⟩, id := none }
  | RequestBody.single (BatchItem.obj r) =>
      PostResult.one (handleSingleRPCRequest exec r)

/-- A row of the `user_operations` table (columns touched by
`updateUserOperationStatus`, plus identity columns). -/
structure UserOpRow where
  user_op_hash : List Char
  sender : List Char
  nonce : List Char
  status : List Char
  tx_hash : Option (List Char)
  gas_used : Option (List Char)
  gas_cost : Option (List Char)
  error_message : Option (List Char)
  submitted_at : Option (List Char)
  confirmed_at : Option (List Char)
deriving DecidableEq, Repr

/-- JS truthiness for an optional string argument (`if (txHash)` etc.):
absent and the empty string are falsy. -/
def truthy (o : Option (List Char)) : Bool :=
  match o with
  | some s => s ≠ []
  | none => false

/-- `DatabaseManager.updateUserOperationStatus`: a single `UPDATE`
statement setting `status` unconditionally, the optional columns only
when the argument is truthy, and the timestamp matching the new status;
the `WHERE` clause matches on `user_op_hash` only.  `now` stands for
`CURRENT_TIMESTAMP`. -/
def updateUserOperationStatus (table : List UserOpRow) (userOpHash status : List Char)
    (txHash gasUsed gasCost errorMessage : Option (List Char)) (now : List Char) :
    List UserOpRow :=
  table.map (fun r =>
    if r.user_op_hash = userOpHash then
      { r with
        status := status,
        tx_hash := if truthy txHash then txHash else r.tx_hash,
        gas_used := if truthy gasUsed then gasUsed else r.gas_used,
        gas_cost := if truthy gasCost then gasCost else r.gas_cost,
        error_message := if truthy errorMessage then errorMessage else r.error_message,
        submitted_at := if status = "submitted".data then some now else r.submitted_at,
        confirmed_at := if status = "confirmed".data then some now else r.confirmed_at }
    else r)

/-- The safe defaults returned by `SendUserOperationMethod.estimateGas`
when anything in its body throws. -/
def safeDefaults : GasEstimate :=
  { preVerificationGas := "0xf4240".data,
    verificationGasLimit := "0xf4240".data,
    callGasLimit := "0xf4240".data }

/-- The `try` body of `SendUserOperationMethod.estimateGas`: the params
arity check, the EntryPoint comparison (a non-string second param makes
`toLowerCase` throw), formatting, and the call to
`validator.estimateGas`, passed as the oracle `est`.  Errors model JS
throws. -/
def estimateGasTry (entryPointAddress : List Char)
    (est : UserOperation → Except RPCError GasEstimate) (params : List RpcParam) :
    Except RPCError GasEstimate :=
  match params with
  | userOpP :: entryPointP :: _ =>
      match entryPointP with
      | RpcParam.jstr entryPoint =>
          if toLowerStr entryPoint ≠ toLowerStr entryPointAddress then
            Except.error
              ⟨-32500, ("Unsupported EntryPoint. Supported: ".data ++ entryPointAddress),
               none⟩
          else
            match userOpP with
            | RpcParam.jobj userOp => est (formatUserOperation userOp)
            | RpcParam.jstr _ =>
                est (formatUserOperation
                  { sender := [], nonce := [], initCode := [], callData := [],
                    callGasLimit := [], verificationGasLimit := [],
                    preVerificationGas := [], maxFeePerGas := [],
                    maxPriorityFeePerGas := [], paymasterAndData := [], signature := [] })
            | RpcParam.jnull =>
                Except.error ⟨-32603, "TypeError: Cannot read properties of null".data, none⟩
      | RpcParam.jobj _ =>
          Except.error
            ⟨-32603, "TypeError: entryPoint.toLowerCase is not a function".data, none⟩
      | RpcParam.jnull =>
          Except.error ⟨-32603, "TypeError: Cannot read properties of null".data, none⟩
  | _ => Except.error ⟨-32602, "Invalid params: expected [userOp, entryPoint]".data, none⟩

/-- `SendUserOperationMethod.estimateGas`: the catch-all around the body
converts every throw into the safe defaults. -/
def estimateGas (entryPointAddress : List Char)
    (est : UserOperation → Except RPCError GasEstimate) (params : List RpcParam) :
    GasEstimate :=
  match estimateGasTry entryPointAddress est params with
  | Except.ok gasEstimate => gasEstimate
  | Except.error _ => safeDefaults

deriving instance DecidableEq for Except

/-- A sample already-formatted UserOperation used for concrete
evaluations. -/
def sampleOp : UserOperation :=
  { sender := "0xaa".data, nonce := "0x07".data, initCode := "0x".data,
    callData := "0x".data, callGasLimit := "0xf4240".data,
    verificationGasLimit := "0xf4240".data, preVerificationGas := "0xf4240".data,
    maxFeePerGas := "0x10".data, maxPriorityFeePerGas := "0x10".data,
    paymasterAndData := "0x".data, signature := "0x".data }

/-- A sample mempool holding `sampleOp` under hash `0xh1`, with its nonce
indexed. -/
def sampleMempool : MempoolState :=
  { inMemoryMempool := [("0xh1".data, sampleOp)],
    senderNonces := [("0xaa".data, ["0x07".data])] }

/-- The empty mempool. -/
def emptyMempool : MempoolState :=
  { inMemoryMempool := [], senderNonces := [] }

/-- A sample confirmed store row. -/
def sampleRow : UserOpRow :=
  { user_op_hash := "0xh1".data, sender := "0xaa".data, nonce := "0x07".data,
    status := "confirmed".data, tx_hash := some ("0xtx".data), gas_used := none,
    gas_cost := none, error_message := none, submitted_at := none,
    confirmed_at := some ("t1".data) }

/-- Sample ops with fees 0x10 / 0x30 / 0x20 (spec scenario 5). -/
def opLowFee : UserOperation := { sampleOp with sender := "0xaa".data, maxFeePerGas := "0x10".data }

/-- Sample op with fee 0x30. -/
def opHighFee : UserOperation := { sampleOp with sender := "0xbb".data, maxFeePerGas := "0x30".data }

/-- Sample op with fee 0x20. -/
def opMidFee : UserOperation := { sampleOp with sender := "0xcc".data, maxFeePerGas := "0x20".data }

/-- A sample well-formed request with id 7. -/
def sampleRequest : RPCRequest :=
  { jsonrpc := some ("2.0".data), method := some ("eth_chainId".data),
    params := some [], id := some (JsId.num 7) }

/-- A sample method-table oracle. -/
def sampleExec : List Char → List RpcParam → Except RPCError (List Char) :=
  fun _ _ => Except.ok ("0x3919".data)

/-- A sample always-throwing estimation oracle. -/
def sampleEst : UserOperation → Except RPCError GasEstimate :=
  fun _ => Except.error ⟨-32603, "estimation failed".data, none⟩

/-- Evaluation of `Char.ofNat` below the surrogate range. -/
theorem char_toNat_ofNat_of_lt {n : Nat} (h : n < 55296) : (Char.ofNat n).toNat = n := by
  have hv : n.isValidChar := Or.inl h
  rw [Char.ofNat, dif_pos hv]
  simp [Char.ofNatAux, Char.toNat, UInt32.toNat]

/-- `Char.toLower` is idempotent. -/
theorem char_toLower_toLower (c : Char) : c.toLower.toLower = c.toLower := by
  unfold Char.toLower
  by_cases h : c.toNat ≥ 65 ∧ c.toNat ≤ 90
  · rw [if_pos h]
    have h2 : (Char.ofNat (c.toNat + 32)).toNat = c.toNat + 32 :=
      char_toNat_ofNat_of_lt (by omega)
    rw [if_neg]
    omega
  · rw [if_neg h, if_neg h]

theorem toLowerStr_idem (s : List Char) : toLowerStr (toLowerStr s) = toLowerStr s := by
  induction s with
  | nil => rfl
  | cons c t ih =>
    simp only [toLowerStr, List.map_cons, List.map_map] at ih ⊢
    rw [char_toLower_toLower]
    simpa [toLowerStr] using ih

theorem toLowerStr_append (a b : List Char) :
    toLowerStr (a ++ b) = toLowerStr a ++ toLowerStr b := by
  simp [toLowerStr]

theorem toLowerStr_length (s : List Char) : (toLowerStr s).length = s.length := by
  simp [toLowerStr]

theorem toLowerStr_ne_nil {s : List Char} (h : s ≠ []) : toLowerStr s ≠ [] := by
  simpa [toLowerStr] using h

theorem toLowerStr_0x : toLowerStr ("0x".data) = "0x".data := by decide

theorem padTo40_length (s : List Char) : (padTo40 s).length = 40 := by
  simp [padTo40]
  omega

theorem padTo40_of_length_eq (s : List Char) (h : s.length = 40) : padTo40 s = s := by
  simp [padTo40, h]

/-- Shape of every `ensureHexStripped` result: either `0x`, or `0x`
followed by a lowercased string that is 40 chars long (addresses) or
non-empty of even length (numeric fields). -/
theorem ensureHexStripped_spec (s : List Char) (b : Bool) :
    ensureHexStripped s b = "0x".data ∨
    ∃ w, ensureHexStripped s b = "0x".data ++ toLowerStr w ∧
      (b = true → w.length = 40) ∧ (b = false → w.length % 2 = 0 ∧ w ≠ []) := by
  unfold ensureHexStripped
  by_cases h0 : s = [] ∨ s = "0".data
  · rw [if_pos h0]; exact Or.inl rfl
  · rw [if_neg h0]
    cases b with
    | true =>
      rw [if_pos rfl]
      exact Or.inr ⟨padTo40 s, rfl, fun _ => padTo40_length s, by simp⟩
    | false =>
      rw [if_neg (by simp)]
      by_cases hodd : s.length % 2 = 1
      · rw [if_pos hodd]
        refine Or.inr ⟨'0' :: s, rfl, by simp, fun _ => ⟨?_, by simp⟩⟩
        simp
        omega
      · rw [if_neg hodd]
        refine Or.inr ⟨s, rfl, by simp, fun _ => ⟨by omega, ?_⟩⟩
        intro hs
        exact h0 (Or.inl hs)

/-- Shape of every `ensureHex` result (same shape as
`ensureHexStripped`). -/
theorem ensureHex_spec (v : List Char) (b : Bool) :
    ensureHex v b = "0x".data ∨
    ∃ w, ensureHex v b = "0x".data ++ toLowerStr w ∧
      (b = true → w.length = 40) ∧ (b = false → w.length % 2 = 0 ∧ w ≠ []) := by
  unfold ensureHex
  by_cases h : v = []
  · rw [if_pos h]; exact Or.inl rfl
  · rw [if_neg h]; exact ensureHexStripped_spec _ b

/-- A value already of output shape is a fixed point of `ensureHex`. -/
theorem ensureHex_prefix_lower (w : List Char) (b : Bool)
    (hb : b = true → w.length = 40) (hb' : b = false → w.length % 2 = 0 ∧ w ≠ []) :
    ensureHex ("0x".data ++ toLowerStr w) b = "0x".data ++ toLowerStr w := by
  have hwne : w ≠ [] := by
    cases b with
    | true => intro hw; have := hb rfl; rw [hw] at this; simp at this
    | false => exact (hb' rfl).2
  have hlw : toLowerStr w ≠ [] := toLowerStr_ne_nil hwne
  have hval : ("0x".data ++ toLowerStr w) ≠ [] := by simp
  have htake : ("0x".data ++ toLowerStr w).take 2 = "0x".data := by
    show ('0' :: 'x' :: toLowerStr w).take 2 = _
    rfl
  have hdrop : ("0x".data ++ toLowerStr w).drop 2 = toLowerStr w := by
    show ('0' :: 'x' :: toLowerStr w).drop 2 = _
    rfl
  rw [ensureHex, if_neg hval, if_pos htake, hdrop]
  have hn0 : toLowerStr w ≠ "0".data := by
    intro hcon
    have hlen : (toLowerStr w).length = 1 := by rw [hcon]; rfl
    rw [toLowerStr_length] at hlen
    cases b with
    | true => have := hb rfl; omega
    | false => have := (hb' rfl).1; omega
  rw [ensureHexStripped, if_neg (by simp [hlw, hn0])]
  cases b with
  | true =>
    rw [if_pos rfl]
    rw [padTo40_of_length_eq _ (by rw [toLowerStr_length]; exact hb rfl)]
    rw [toLowerStr_idem]
  | false =>
    rw [if_neg (by simp)]
    rw [if_neg (by rw [toLowerStr_length]; have := (hb' rfl).1; omega)]
    rw [toLowerStr_idem]

theorem ensureHex_0x (b : Bool) : ensureHex ("0x".data) b = "0x".data := by
  cases b <;> decide

theorem ensureHex_idem (v : List Char) (b : Bool) :
    ensureHex (ensureHex v b) b = ensureHex v b := by
  rcases ensureHex_spec v b with h | ⟨w, hw, hb, hb'⟩
  · rw [h, ensureHex_0x]
  · rw [hw, ensureHex_prefix_lower w b hb hb']

theorem ensureHex_ne_nil (v : List Char) (b : Bool) : ensureHex v b ≠ [] := by
  rcases ensureHex_spec v b with h | ⟨w, hw, _, _⟩
  · rw [h]; simp
  · rw [hw]; simp

theorem orDefault_of_ne_nil {v : List Char} (d : List Char) (h : v ≠ []) :
    orDefault v d = v := by
  rw [orDefault, if_neg h]

theorem ensureHex_orDefault_idem (v d : List Char) :
    ensureHex (orDefault (ensureHex v false) d) false = ensureHex v false := by
  rw [orDefault_of_ne_nil d (ensureHex_ne_nil v false), ensureHex_idem]

/-- The sender field normalization (`ensureHex` with the address flag
followed by `toLowerCase`) is a fixed point on its own output. -/
theorem sender_format_idem (v : List Char) :
    toLowerStr (ensureHex (toLowerStr (ensureHex v true)) true) =
      toLowerStr (ensureHex v true) := by
  rcases ensureHex_spec v true with h | ⟨w, hw, hb, hb'⟩
  · rw [h, toLowerStr_0x, ensureHex_0x, toLowerStr_0x]
  · rw [hw, toLowerStr_append, toLowerStr_0x, toLowerStr_idem]
    rw [ensureHex_prefix_lower w true hb hb']
    rw [toLowerStr_append, toLowerStr_0x, toLowerStr_idem]

/-- Claim C9: `formatUserOperation` is idempotent — lowercasing,
even-length padding, zero/empty collapsing to `0x`, and 40-hex-char
sender padding are all fixed points on already-formatted output, so a
second application changes nothing, field by field. -/
theorem c9_formatUserOperation_idempotent (x : UserOperation) :
    formatUserOperation (formatUserOperation x) = formatUserOperation x := by
  unfold formatUserOperation
  simp only [UserOperation.mk.injEq]
  refine ⟨sender_format_idem x.sender, ?_, ?_, ?_, ?_, ?_, ?_, ?_, ?_, ?_, ?_⟩
  · exact ensureHex_idem x.nonce false
  all_goals exact ensureHex_orDefault_idem _ _

/-- Claim C1 counterexample: a static call that reverts with the decoded
`ValidationResult` selector — the spec's success selector, for which
the claim demands `{ok: true}` — yet the code's `simulateValidation`
reports failure (it treats every revert as a failed validation). -/
theorem c1_counterexample :
    specSimulationOk
        (StaticCallOutcome.exn
          (some (ParsedError.parsed ("ValidationResult".data) []))
          ("execution reverted".data)) = true ∧
    (simulateValidation
        (StaticCallOutcome.exn
          (some (ParsedError.parsed ("ValidationResult".data) []))
          ("execution reverted".data))).success = false := by
  constructor
  · decide
  · rfl

/-- Claim C1 (amended): `simulateValidation` returns `{success: true}`
iff the EntryPoint static call does not revert; ANY revert — the
success selector included — yields a failure result whose reason is the
decoded error name (or `Validation failed` when the decode yields
nothing) and whose data is the decoded args when available, else the
raw error message. -/
theorem c1_success_iff_no_revert :
    (∀ call, ((simulateValidation call).success = true ↔
      ∃ ret, call = StaticCallOutcome.ok ret)) ∧
    (∀ ret, simulateValidation (StaticCallOutcome.ok ret) =
      ⟨true, some ret, none, none⟩) ∧
    (∀ name args msg,
      simulateValidation (StaticCallOutcome.exn (some (ParsedError.parsed name args)) msg) =
        ⟨false, none, some (if name = [] then "Validation failed".data else name),
         some args⟩) ∧
    (∀ msg, simulateValidation (StaticCallOutcome.exn (some ParsedError.parsedNull) msg) =
      ⟨false, none, some ("Validation failed".data), none⟩) ∧
    (∀ msg, simulateValidation (StaticCallOutcome.exn (some ParsedError.unparseable) msg) =
      ⟨false, none, some msg, none⟩) ∧
    (∀ msg, simulateValidation (StaticCallOutcome.exn none msg) =
      ⟨false, none, some msg, none⟩) := by
  refine ⟨?_, fun ret => rfl, fun name args msg => rfl, fun msg => rfl,
    fun msg => rfl, fun msg => rfl⟩
  intro call
  cases call with
  | ok ret => simp [simulateValidation]
  | exn data msg =>
    cases data with
    | none => simp [simulateValidation]
    | some pe => cases pe <;> simp [simulateValidation]

/-- Claim C2 (code bug evaluation): confirming or failing the only
operation in the mempool removes it from `byHash` but leaves its nonce
in `byNonce` — `markAsConfirmed` deletes the map entry before reading
it back (so the cleanup branch never runs) and `markAsFailed` has no
nonce cleanup at all, contradicting the intended removal from both
maps. -/
theorem c2_nonce_left_behind :
    (markAsConfirmed sampleMempool ("0xh1".data) ("21000".data) ("100".data)).inMemoryMempool
      = [] ∧
    (markAsConfirmed sampleMempool ("0xh1".data) ("21000".data) ("100".data)).senderNonces
      = [("0xaa".data, ["0x07".data])] ∧
    (markAsFailed sampleMempool ("0xh1".data) ("transaction-reverted".data)).inMemoryMempool
      = [] ∧
    (markAsFailed sampleMempool ("0xh1".data) ("transaction-reverted".data)).senderNonces
      = [("0xaa".data, ["0x07".data])] := by
  refine ⟨?_, ?_, ?_, ?_⟩ <;> rfl

/-- Claim C3 counterexample: with an empty mempool and a store that
reports a duplicate hash, `add` rethrows the store error but the
in-memory maps now hold the inserted entry — they are NOT rolled back
to match the store. -/
theorem c3_counterexample :
    MempoolState.add emptyMempool sampleOp ("0xh1".data)
        (Except.error ("duplicate-hash".data)) =
      (Except.error ("duplicate-hash".data),
       { inMemoryMempool := [("0xh1".data, sampleOp)],
         senderNonces := [("0xaa".data, ["0x07".data])] }) ∧
    ({ inMemoryMempool := [("0xh1".data, sampleOp)],
       senderNonces := [("0xaa".data, ["0x07".data])] } : MempoolState) ≠ emptyMempool := by
  constructor
  · rfl
  · decide

/-- Claim C3 (amended): when both in-memory checks pass and the store's
`saveUserOp` fails, `add` rethrows the store error, but the in-memory
maps keep the newly inserted entry (insertion happens before the store
call and there is no rollback). -/
theorem c3_add_no_rollback (st : MempoolState) (userOp : UserOperation)
    (userOpHash : List Char) (e : List Char)
    (h1 : (mapGet st.inMemoryMempool userOpHash).isSome = false)
    (h2 : (match mapGet st.senderNonces (toLowerStr userOp.sender) with
           | some nonces => nonces.contains userOp.nonce
           | none => false) = false) :
    MempoolState.add st userOp userOpHash (Except.error e) =
      (Except.error e,
       { inMemoryMempool := mapSet st.inMemoryMempool userOpHash userOp,
         senderNonces := mapSet st.senderNonces (toLowerStr userOp.sender)
           (setAdd ((mapGet st.senderNonces (toLowerStr userOp.sender)).getD [])
             userOp.nonce) }) := by
  have h2' : (match mapGet st.senderNonces (toLowerStr userOp.sender) with
      | some nonces => decide (userOp.nonce ∈ nonces)
      | none => false) = false := by
    rw [← h2]
    cases mapGet st.senderNonces (toLowerStr userOp.sender) with
    | none => rfl
    | some nonces => simp
  simp [MempoolState.add, h1, h2']

theorem c3_add_no_rollback_witness :
    (mapGet emptyMempool.inMemoryMempool ("0xh1".data)).isSome = false ∧
    MempoolState.add emptyMempool sampleOp ("0xh1".data)
        (Except.error ("duplicate-hash".data)) =
      (Except.error ("duplicate-hash".data),
       { inMemoryMempool := mapSet emptyMempool.inMemoryMempool ("0xh1".data) sampleOp,
         senderNonces := mapSet emptyMempool.senderNonces (toLowerStr sampleOp.sender)
           (setAdd ((mapGet emptyMempool.senderNonces (toLowerStr sampleOp.sender)).getD [])
             sampleOp.nonce) }) :=
  ⟨by decide,
   c3_add_no_rollback emptyMempool sampleOp ("0xh1".data) ("duplicate-hash".data)
     (by decide) (by decide)⟩

/-- Claim C4 counterexample: after `markAsSubmitted`, the submitted
operation is still in the in-memory mempool, and the next tick's
`createBundle` selects it again — a submitted operation IS selected
into a subsequent bundle. -/
theorem c4_counterexample :
    markAsSubmitted sampleMempool ("0xh1".data) ("0xtx".data) = sampleMempool ∧
    createBundle (fun _ => some ("0xh1".data))
        (getAll (markAsSubmitted sampleMempool ("0xh1".data) ("0xtx".data))) =
      Except.ok { userOps := [sampleOp], userOpHashes := ["0xh1".data] } := by
  exact ⟨rfl, rfl⟩

/-- Claim C4 (amended): `markAsSubmitted` only writes through to the
store and leaves the in-memory mempool completely unchanged, so members
of a submitted bundle remain visible to the next tick and the bundle
the next tick builds is exactly the one it would build had
`markAsSubmitted` never run (re-selection instead of no action). -/
theorem c4_markAsSubmitted_keeps_mempool (st : MempoolState)
    (userOpHash txHash : List Char)
    (getUserOpHash : UserOperation → Option (List Char)) :
    markAsSubmitted st userOpHash txHash = st ∧
    getAll (markAsSubmitted st userOpHash txHash) = getAll st ∧
    createBundle getUserOpHash (getAll (markAsSubmitted st userOpHash txHash)) =
      createBundle getUserOpHash (getAll st) :=
  ⟨rfl, rfl, rfl⟩

/-- Claim C5 counterexample: `updateUserOperationStatus` happily moves a
`confirmed` row back to `pending` — a back-transition the claimed
monotonic WHERE clause would have to forbid. -/
theorem c5_counterexample :
    sampleRow.status = "confirmed".data ∧
    (updateUserOperationStatus [sampleRow] ("0xh1".data) ("pending".data)
        none none none none ("t2".data)).map UserOpRow.status = ["pending".data] := by
  constructor
  · rfl
  · rfl

/-- Claim C5 (amended): `updateUserOperationStatus` is a single UPDATE
whose WHERE clause matches on `user_op_hash` only: it silently no-ops
when the hash is absent, and on a matching row the new status
overwrites the old unconditionally — no monotonic-status rule is
enforced, back-transitions included. -/
theorem c5_update_by_hash_only (table : List UserOpRow) (userOpHash status : List Char)
    (txHash gasUsed gasCost errorMessage : Option (List Char)) (now : List Char) :
    ((∀ r ∈ table, r.user_op_hash ≠ userOpHash) →
      updateUserOperationStatus table userOpHash status txHash gasUsed gasCost
        errorMessage now = table) ∧
    (∀ r ∈ updateUserOperationStatus table userOpHash status txHash gasUsed gasCost
        errorMessage now, r.user_op_hash = userOpHash → r.status = status) := by
  constructor
  · intro habs
    unfold updateUserOperationStatus
    conv_rhs => rw [← List.map_id table]
    apply List.map_congr_left
    intro r hr
    rw [if_neg (habs r hr)]
    rfl
  · intro r hr hhash
    unfold updateUserOperationStatus at hr
    rcases List.mem_map.mp hr with ⟨r0, hr0, heq⟩
    by_cases h : r0.user_op_hash = userOpHash
    · rw [if_pos h] at heq
      rw [← heq]
    · rw [if_neg h] at heq
      rw [← heq] at hhash
      exact absurd hhash h

theorem c5_update_by_hash_only_witness :
    (∀ r ∈ [sampleRow], r.user_op_hash ≠ "0xzz".data) ∧
    updateUserOperationStatus [sampleRow] ("0xzz".data) ("pending".data)
      none none none none ("t2".data) = [sampleRow] :=
  ⟨by decide,
   (c5_update_by_hash_only [sampleRow] ("0xzz".data) ("pending".data)
     none none none none ("t2".data)).1 (by decide)⟩

/-- Claim C6 counterexample: with a successful simulation and empty
callData (`L = 0`), the canonical estimation returns
`preVerificationGas = 21000`, not the `(21000 + 0·16)·1.2 = 25200` the
claim's formula demands — the code has no 1.2 multiplier. -/
theorem c6_counterexample :
    estimateUserOperationGas (StaticCallOutcome.ok ("0x".data)) sampleOp =
      { preVerificationGas := "21000".data, verificationGasLimit := "42000".data,
        callGasLimit := "100000".data } ∧
    (21000 + 0 * 16) * 12 / 10 = 25200 ∧
    ("21000".data : List Char) ≠ "25200".data := by
  refine ⟨rfl, by norm_num, by decide⟩

/-- Claim C6 (amended): with `L = byteLength(callData)`, the canonical
gas estimation returns `preVerificationGas = 21000 + L·16` (no 1.2
multiplier), `verificationGasLimit = 2 · preVerificationGas` and
`callGasLimit = 100000` (decimal strings) when the simulation step
succeeds; when it fails, all three fall back to 100000. -/
theorem c6_gas_formula (call : StaticCallOutcome) (userOp : UserOperation) (L : Nat) :
    ((simulateValidation call).success = true → dataLength? userOp.callData = some L →
      estimateUserOperationGas call userOp =
        { preVerificationGas := (Nat.repr (21000 + L * 16)).data,
          verificationGasLimit := (Nat.repr ((21000 + L * 16) * 2)).data,
          callGasLimit := (Nat.repr 100000).data }) ∧
    ((simulateValidation call).success = false →
      estimateUserOperationGas call userOp =
        { preVerificationGas := "100000".data, verificationGasLimit := "100000".data,
          callGasLimit := "100000".data }) := by
  constructor
  · intro hs hL
    simp [estimateUserOperationGas, hs, hL]
  · intro hs
    simp [estimateUserOperationGas, hs]

theorem c6_gas_formula_witness :
    (simulateValidation (StaticCallOutcome.ok ("0x".data))).success = true ∧
    dataLength? sampleOp.callData = some 0 ∧
    estimateUserOperationGas (StaticCallOutcome.ok ("0x".data)) sampleOp =
      { preVerificationGas := (Nat.repr (21000 + 0 * 16)).data,
        verificationGasLimit := (Nat.repr ((21000 + 0 * 16) * 2)).data,
        callGasLimit := (Nat.repr 100000).data } :=
  ⟨rfl, by decide,
   (c6_gas_formula (StaticCallOutcome.ok ("0x".data)) sampleOp 0).1 rfl (by decide)⟩

theorem sortBefore_iff (a b : UserOperation) : sortBefore a b ↔ fee b ≤ fee a := by
  unfold sortBefore cmpUserOp
  split_ifs with h1 h2 <;> constructor <;> intro h <;> omega

/-- Inserting one element commutes with filtering on a fee value: the
elements passed over all have strictly larger fee. -/
theorem filter_fee_orderedInsert (x : UserOperation) (L : List UserOperation) (v : Nat) :
    (List.orderedInsert sortBefore x L).filter (fun op => decide (fee op = v)) =
      if fee x = v then x :: L.filter (fun op => decide (fee op = v))
      else L.filter (fun op => decide (fee op = v)) := by
  rw [List.orderedInsert_eq_take_drop, List.filter_append]
  by_cases hx : fee x = v
  · rw [if_pos hx]
    have htw : (L.takeWhile fun b => decide ¬sortBefore x b).filter
        (fun op => decide (fee op = v)) = [] := by
      rw [List.filter_eq_nil_iff]
      intro a ha
      have h1 := List.mem_takeWhile_imp ha
      simp only [decide_eq_true_eq] at h1 ⊢
      rw [sortBefore_iff] at h1
      omega
    rw [htw, List.nil_append, List.filter_cons, if_pos (by simpa using hx)]
    congr 1
    conv_rhs =>
      rw [← List.takeWhile_append_dropWhile (p := fun b => decide ¬sortBefore x b) (l := L)]
    rw [List.filter_append, htw, List.nil_append]
  · rw [if_neg hx, List.filter_cons, if_neg (by simpa using hx)]
    conv_rhs =>
      rw [← List.takeWhile_append_dropWhile (p := fun b => decide ¬sortBefore x b) (l := L)]
    rw [List.filter_append]

/-- Stability of the executor's sort: for every fee value, the sorted
list restricted to that fee is the input restricted to that fee, in the
same order. -/
theorem filter_fee_insertionSort (pool : List UserOperation) (v : Nat) :
    (List.insertionSort sortBefore pool).filter (fun op => decide (fee op = v)) =
      pool.filter (fun op => decide (fee op = v)) := by
  induction pool with
  | nil => rfl
  | cons x L ih =>
    rw [List.insertionSort, filter_fee_orderedInsert, List.filter_cons]
    by_cases hx : fee x = v
    · rw [if_pos hx, if_pos (by simpa using hx), ih]
    · rw [if_neg hx, if_neg (by simpa using hx), ih]

/-- Claim C7: the bundle an executor tick assembles is the first
min(N, 10) operations of the mempool snapshot under the stable
descending sort by `maxFeePerGas` as a big integer: the member list is
the 10-element prefix of the sorted snapshot, its length is
min(N, 10), it is sorted descending by fee, the sorted list is a
permutation of the snapshot, and operations of any equal fee `v` keep
their snapshot (insertion) order. -/
theorem c7_bundle_selection (getUserOpHash : UserOperation → Option (List Char))
    (pool : List UserOperation) (prep : BundlePrep) (v : Nat)
    (h : createBundle getUserOpHash pool = Except.ok prep) :
    prep.userOps = (List.insertionSort sortBefore pool).take 10 ∧
    prep.userOps.length = min pool.length 10 ∧
    List.Sorted (fun a b => fee b ≤ fee a) prep.userOps ∧
    (List.insertionSort sortBefore pool).Perm pool ∧
    (List.insertionSort sortBefore pool).filter (fun op => decide (fee op = v)) =
      pool.filter (fun op => decide (fee op = v)) := by
  haveI : IsTotal UserOperation sortBefore :=
    ⟨fun a b => by rw [sortBefore_iff, sortBefore_iff]; omega⟩
  haveI : IsTrans UserOperation sortBefore :=
    ⟨fun a b c hab hbc => by
      rw [sortBefore_iff] at hab hbc ⊢; omega⟩
  have hops : prep.userOps = (List.insertionSort sortBefore pool).take 10 := by
    unfold createBundle at h
    by_cases h0 : pool.length = 0
    · rw [if_pos h0] at h; exact absurd h (by simp)
    · rw [if_neg h0] at h
      by_cases h1 : pool.any (fun op => (parseBigInt? op.maxFeePerGas).isNone)
      · rw [if_pos h1] at h; exact absurd h (by simp)
      · rw [if_neg h1] at h
        have := Except.ok.inj h
        rw [← this]
  refine ⟨hops, ?_, ?_, List.perm_insertionSort _ _, filter_fee_insertionSort pool v⟩
  · rw [hops, List.length_take, List.length_insertionSort]
    omega
  · rw [hops]
    have hs : List.Sorted sortBefore (List.insertionSort sortBefore pool) :=
      List.sorted_insertionSort sortBefore pool
    have hs2 : List.Sorted (fun a b => fee b ≤ fee a)
        (List.insertionSort sortBefore pool) :=
      hs.imp (fun hab => (sortBefore_iff _ _).mp hab)
    exact hs2.sublist (List.take_sublist _ _)

theorem c7_bundle_selection_witness :
    createBundle (fun _ => none) [opLowFee, opHighFee, opMidFee] =
      Except.ok { userOps := [opHighFee, opMidFee, opLowFee], userOpHashes := [] } ∧
    (({ userOps := [opHighFee, opMidFee, opLowFee], userOpHashes := [] } :
        BundlePrep).userOps =
      (List.insertionSort sortBefore [opLowFee, opHighFee, opMidFee]).take 10 ∧
    ({ userOps := [opHighFee, opMidFee, opLowFee], userOpHashes := [] } :
        BundlePrep).userOps.length =
      min ([opLowFee, opHighFee, opMidFee] : List UserOperation).length 10 ∧
    List.Sorted (fun a b => fee b ≤ fee a)
      ({ userOps := [opHighFee, opMidFee, opLowFee], userOpHashes := [] } :
        BundlePrep).userOps ∧
    (List.insertionSort sortBefore [opLowFee, opHighFee, opMidFee]).Perm
      [opLowFee, opHighFee, opMidFee] ∧
    (List.insertionSort sortBefore [opLowFee, opHighFee, opMidFee]).filter
        (fun op => decide (fee op = 16)) =
      ([opLowFee, opHighFee, opMidFee] : List UserOperation).filter
        (fun op => decide (fee op = 16))) :=
  ⟨rfl,
   c7_bundle_selection (fun _ => none) [opLowFee, opHighFee, opMidFee]
     { userOps := [opHighFee, opMidFee, opLowFee], userOpHashes := [] } 16 rfl⟩

/-- The response id equals the request id whenever the request id is
present and non-null, in every branch of `handleSingleRPCRequest`. -/
theorem handleSingleRPCRequest_id
    (exec : List Char → List RpcParam → Except RPCError (List Char))
    (r : RPCRequest) (v : JsId) (hid : r.id = some v) :
    (handleSingleRPCRequest exec r).id = some v := by
  unfold handleSingleRPCRequest
  rw [hid]
  cases r.method with
  | none => rfl
  | some m =>
      by_cases hm : m = []
      · simp [hm]
      · by_cases hj : r.jsonrpc ≠ some ("2.0".data)
        · simp [hm, hj]
        · simp only [hm, hj, if_neg, if_false]
          cases exec m (r.params.getD []) <;> simp [hm, hj]

/-- Claim C8: a non-empty batch array of length n maps to an array of
exactly n responses, entry i depending only on request i (independent
processing with per-request errors preserved); whenever item i is a
request object with a present non-null id, response i carries that same
id; and the empty batch yields the single `-32600` error response. -/
theorem c8_batch (exec : List Char → List RpcParam → Except RPCError (List Char))
    (items : List BatchItem) (i : Nat) (r : RPCRequest) (v : JsId)
    (hne : items ≠ []) (hi : items.get? i = some (BatchItem.obj r))
    (hid : r.id = some v) :
    handleRPCPost exec (RequestBody.batch items) =
      PostResult.many (items.map (processBatchItem exec)) ∧
    (items.map (processBatchItem exec)).length = items.length ∧
    (items.map (processBatchItem exec)).get? i =
      (items.get? i).map (processBatchItem exec) ∧
    ((items.map (processBatchItem exec)).get? i).map RPCResponse.id = some (some v) ∧
    handleRPCPost exec (RequestBody.batch []) = PostResult.one emptyBatchResponse := by
  refine ⟨?_, List.length_map _ _, List.get?_map _ _ _, ?_, rfl⟩
  · rw [handleRPCPost]
    rw [if_neg (by simpa using hne)]
  · rw [List.get?_map, hi]
    simp [processBatchItem, handleSingleRPCRequest_id exec r v hid]

theorem c8_batch_witness :
    ([BatchItem.obj sampleRequest, BatchItem.nonObj] : List BatchItem) ≠ [] ∧
    ([BatchItem.obj sampleRequest, BatchItem.nonObj] : List BatchItem).get? 0 =
      some (BatchItem.obj sampleRequest) ∧
    sampleRequest.id = some (JsId.num 7) ∧
    (handleRPCPost sampleExec
        (RequestBody.batch [BatchItem.obj sampleRequest, BatchItem.nonObj]) =
      PostResult.many
        (([BatchItem.obj sampleRequest, BatchItem.nonObj] : List BatchItem).map
          (processBatchItem sampleExec)) ∧
    (([BatchItem.obj sampleRequest, BatchItem.nonObj] : List BatchItem).map
        (processBatchItem sampleExec)).length =
      ([BatchItem.obj sampleRequest, BatchItem.nonObj] : List BatchItem).length ∧
    (([BatchItem.obj sampleRequest, BatchItem.nonObj] : List BatchItem).map
        (processBatchItem sampleExec)).get? 0 =
      (([BatchItem.obj sampleRequest, BatchItem.nonObj] : List BatchItem).get? 0).map
        (processBatchItem sampleExec) ∧
    ((([BatchItem.obj sampleRequest, BatchItem.nonObj] : List BatchItem).map
        (processBatchItem sampleExec)).get? 0).map RPCResponse.id =
      some (some (JsId.num 7)) ∧
    handleRPCPost sampleExec (RequestBody.batch []) =
      PostResult.one emptyBatchResponse) :=
  ⟨by decide, rfl, rfl,
   c8_batch sampleExec [BatchItem.obj sampleRequest, BatchItem.nonObj] 0 sampleRequest
     (JsId.num 7) (by decide) rfl rfl⟩

/-- Claim C10: `SendUserOperationMethod.estimateGas` never surfaces an
error — too few params, an EntryPoint that does not match the
configured one (case-insensitively), and a throwing underlying
estimation all produce the fixed `0xf4240` defaults, and in general the
result is either those defaults or the successful estimate. -/
theorem c10_estimateGas_never_errors (entryPointAddress : List Char)
    (est : UserOperation → Except RPCError GasEstimate) (params : List RpcParam)
    (userOp : UserOperation) (entryPoint : List Char) (rest : List RpcParam)
    (e : RPCError) :
    (params.length < 2 → estimateGas entryPointAddress est params = safeDefaults) ∧
    (params = RpcParam.jobj userOp :: RpcParam.jstr entryPoint :: rest →
      toLowerStr entryPoint ≠ toLowerStr entryPointAddress →
      estimateGas entryPointAddress est params = safeDefaults) ∧
    (params = RpcParam.jobj userOp :: RpcParam.jstr entryPoint :: rest →
      toLowerStr entryPoint = toLowerStr entryPointAddress →
      est (formatUserOperation userOp) = Except.error e →
      estimateGas entryPointAddress est params = safeDefaults) ∧
    (estimateGas entryPointAddress est params = safeDefaults ∨
      ∃ g, estimateGasTry entryPointAddress est params = Except.ok g ∧
        estimateGas entryPointAddress est params = g) := by
  refine ⟨?_, ?_, ?_, ?_⟩
  · intro hlen
    match params with
    | [] => rfl
    | [p] => rfl
    | p1 :: p2 :: rest2 => simp at hlen; omega
  · intro hp hmis
    subst hp
    simp only [estimateGas, estimateGasTry]
    rw [if_pos hmis]
  · intro hp hmatch herr
    subst hp
    simp only [estimateGas, estimateGasTry]
    rw [if_neg (by simp [hmatch]), herr]
  · cases hg : estimateGasTry entryPointAddress est params with
    | ok g => exact Or.inr ⟨g, rfl, by simp only [estimateGas]; rw [hg]⟩
    | error e2 => exact Or.inl (by simp only [estimateGas]; rw [hg])

theorem c10_estimateGas_never_errors_witness :
    ([] : List RpcParam).length < 2 ∧
    estimateGas ("0xd8d429fe93230ac840c1ee3dde76f15c6a265538".data) sampleEst [] =
      safeDefaults :=
  ⟨by decide,
   (c10_estimateGas_never_errors ("0xd8d429fe93230ac840c1ee3dde76f15c6a265538".data)
     sampleEst [] sampleOp [] [] ⟨-32603, "estimation failed".data, none⟩).1
     (by decide)⟩
